import Mathlib

/-!
Verification of the `api_client` module: a small HTTP API client exposing
three operations (`auth`, `get_user`, `update_user`), a response-status
helper (`is_status_ok`), and a sequential sample driver (`main`).

The embedding is shallow.  JSON-decoded values are modelled by the `Json`
inductive; a decoded JSON object (a Python dict produced by `resp.json()`)
is an association list with distinct keys, looked up with `List.lookup`.
The aiohttp session is modelled as a pure transport oracle mapping each
outgoing `Request` to an `HttpResponse`: every client method builds exactly
one request, passes it to the session, asserts HTTP status 200, and decodes
the body.  Python exceptions (`AssertionError`, `KeyError`, `Exception`)
are modelled by the `Except PyError` result; text printed to stdout is
collected in a `List String`.
-/

/-- A JSON value as decoded by the JSON codec of the transport layer.
Numbers are modelled as integers (every number appearing in this API is an
integer). -/
inductive Json where
  | null
  | bool (b : Bool)
  | num (n : Int)
  | str (s : String)
  | arr (elems : List Json)
  | obj (fields : List (String × Json))

/-- A decoded JSON object, i.e. a Python dict: an association list whose
keys are distinct. -/
abbrev JsonObject := List (String × Json)

mutual

/-- Python `repr` of a JSON-decoded value, as used by `str` on containers.
Quotes are rendered but escaping inside strings is not modelled (no string
in this development contains a quote). -/
def pyRepr : Json → String
  | .null => "None"
  | .bool true => "True"
  | .bool false => "False"
  | .num n => toString n
  | .str s => "\x27" ++ s ++ "\x27"
  | .arr elems => "[" ++ pyReprElems elems ++ "]"
  | .obj fields => "\x7b" ++ pyReprFields fields ++ "\x7d"

/-- Comma-separated `repr` of the elements of a decoded JSON array. -/
def pyReprElems : List Json → String
  | [] => ""
  | [x] => pyRepr x
  | x :: xs => pyRepr x ++ ", " ++ pyReprElems xs

/-- Comma-separated `repr` of the fields of a decoded JSON object. -/
def pyReprFields : List (String × Json) → String
  | [] => ""
  | [(k, v)] => "\x27" ++ k ++ "\x27: " ++ pyRepr v
  | (k, v) :: xs => "\x27" ++ k ++ "\x27: " ++ pyRepr v ++ ", " ++ pyReprFields xs

end

/-- Python `str()` of a JSON-decoded value, as performed by f-string
interpolation: a string passes through unchanged, anything else is
rendered by `repr`-style formatting. -/
def pyStr : Json → String
  | .str s => s
  | v => pyRepr v

/-- Python `==` between a JSON-decoded value and a string literal, as in
`response[\x27status\x27] == \x27OK\x27`: only an equal string compares
equal; a number, boolean, `None`, array or object never equals a string. -/
def pyEqStr : Json → String → Bool
  | .str s, t => s == t
  | _, _ => false

/-- An HTTP request as observed by the transport: method, absolute URL,
query parameters (in insertion order, values being the Python objects put
into the `params` dict), and optional JSON body. -/
structure Request where
  method : String
  url : String
  params : List (String × Json)
  body : Option Json

/-- An HTTP response: status code and the JSON object obtained from
`resp.json()`.  Every response of this API is a JSON object. -/
structure HttpResponse where
  status : Nat
  json : JsonObject

/-- The aiohttp session, modelled as a pure transport oracle: it answers
each request with a response. -/
abbrev Session := Request → HttpResponse

/-- A Python exception propagating out of the code under verification. -/
inductive PyError where
  | assertionError
  | exception (msg : String)
  | keyError (key : String)

/-- `urllib.parse.urljoin(base, rel)` for the shapes occurring in this
module: `base` is `scheme://host:port` with an empty path and `rel` is a
relative path without a leading slash or dot segments, so the result is
`base` followed by `/` followed by `rel`. -/
def urljoin (base rel : String) : String := base ++ "/" ++ rel

/-- The `ApiClient` object: the `_base_url` and `_session` attributes set
by `__init__`. -/
structure ApiClient where
  base_url : String
  session : Session

/-- `ApiClient.__init__(session, host, port)`: stores
`f\x27\x7bhost\x7d:\x7bport\x7d\x27` as the base URL and the session as
given.  In the source, `host` defaults to `http://testapi.ru` and `port`
defaults to `80`. -/
def ApiClient.init (session : Session) (host port : String) : ApiClient :=
  { base_url := host ++ ":" ++ port, session := session }

/-- The GET request built by `ApiClient.auth`: URL `urljoin(base, auth)`,
query parameters `login` and `pass`, no body. -/
def authRequest (base_url login password : String) : Request :=
  { method := "GET"
    url := urljoin base_url "auth"
    params := [("login", Json.str login), ("pass", Json.str password)]
    body := none }

/-- `ApiClient.auth(login, password)`: issues the single auth request on
the session, asserts `resp.status == 200` and returns `resp.json()`.
The first component is the client after the call (the method assigns no
attribute), the second the list of requests issued. -/
def ApiClient.auth (c : ApiClient) (login password : String) :
    ApiClient × List Request × Except PyError JsonObject :=
  let req := authRequest c.base_url login password
  let resp := c.session req
  (c, [req],
    if resp.status = 200 then Except.ok resp.json
    else Except.error PyError.assertionError)

/-- The GET request built by `ApiClient.get_user`: URL
`urljoin(base, f\x27get-user/\x7busername\x7d\x27)`, query parameter
`token`, no body. -/
def getUserRequest (base_url username : String) (token : Json) : Request :=
  { method := "GET"
    url := urljoin base_url ("get-user/" ++ username)
    params := [("token", token)]
    body := none }

/-- `ApiClient.get_user(username, token)`: issues the single get-user
request on the session, asserts `resp.status == 200` and returns
`resp.json()`. -/
def ApiClient.get_user (c : ApiClient) (username : String) (token : Json) :
    ApiClient × List Request × Except PyError JsonObject :=
  let req := getUserRequest c.base_url username token
  let resp := c.session req
  (c, [req],
    if resp.status = 200 then Except.ok resp.json
    else Except.error PyError.assertionError)

/-- The POST request built by `ApiClient.update_user`: URL
`urljoin(base, f\x27user/\x7buser_id\x7d/update\x27)`, query parameter
`token`, and the keyword-argument dict serialized as the JSON body. -/
def updateUserRequest (base_url : String) (user_id token : Json)
    (data : JsonObject) : Request :=
  { method := "POST"
    url := urljoin base_url ("user/" ++ pyStr user_id ++ "/update")
    params := [("token", token)]
    body := some (Json.obj data) }

/-- `ApiClient.update_user(user_id, token, **data)`: issues the single
update request on the session, asserts `resp.status == 200` and returns
`resp.json()`. -/
def ApiClient.update_user (c : ApiClient) (user_id token : Json)
    (data : JsonObject) :
    ApiClient × List Request × Except PyError JsonObject :=
  let req := updateUserRequest c.base_url user_id token data
  let resp := c.session req
  (c, [req],
    if resp.status = 200 then Except.ok resp.json
    else Except.error PyError.assertionError)

/-- `is_status_ok(response)`: returns `False` when the `status` key is
absent; returns `True` when its value equals the string `OK`; otherwise
prints `Request failed with status: ...` and returns `False`.  The second
component collects the printed lines. -/
def is_status_ok (response : JsonObject) : Bool × List String :=
  match response.lookup "status" with
  | none => (false, [])
  | some status =>
    if pyEqStr status "OK" then (true, [])
    else (false, ["Request failed with status: " ++ pyStr status])

/-- The keyword arguments passed by `main` to `update_user`, in order. -/
def mainUpdateData : JsonObject :=
  [("active", Json.str "1"),
   ("blocked", Json.bool true),
   ("name", Json.str "Petr Petrovich"),
   ("permissions", Json.arr [Json.obj
      [("id", Json.num 1), ("permission", Json.str "comment")]])]

/-- `main()`: creates a client with the default host and port, then runs
authenticate, get-user and update-user in sequence, checking
`is_status_ok` after each step and extracting `token` and `id` from the
responses (a missing key is a `KeyError`).  Returns the requests issued,
the lines printed, and the final outcome.  The aiohttp `ClientSession`
created by `main` is the transport oracle passed in as `session`. -/
def api_client.main (session : Session) : List Request × List String × Except PyError Unit :=
  let client := ApiClient.init session "http://testapi.ru" "80"
  let (_, reqs1, res1) := client.auth "test" "12345"
  match res1 with
  | .error e => (reqs1, [], .error e)
  | .ok response =>
    let (ok1, out1) := is_status_ok response
    if ok1 then
      match response.lookup "token" with
      | none => (reqs1, out1, .error (.keyError "token"))
      | some auth_token =>
        let (_, reqs2, res2) := client.get_user "ivanov" auth_token
        match res2 with
        | .error e => (reqs1 ++ reqs2, out1, .error e)
        | .ok response2 =>
          let (ok2, out2) := is_status_ok response2
          if ok2 then
            match response2.lookup "id" with
            | none => (reqs1 ++ reqs2, out1 ++ out2, .error (.keyError "id"))
            | some user_id =>
              let (_, reqs3, res3) := client.update_user user_id auth_token mainUpdateData
              match res3 with
              | .error e => (reqs1 ++ reqs2 ++ reqs3, out1 ++ out2, .error e)
              | .ok response3 =>
                let (ok3, out3) := is_status_ok response3
                if ok3 then
                  (reqs1 ++ reqs2 ++ reqs3, out1 ++ out2 ++ out3, .ok ())
                else
                  (reqs1 ++ reqs2 ++ reqs3, out1 ++ out2 ++ out3,
                   .error (.exception "Unable to update user data"))
          else
            (reqs1 ++ reqs2, out1 ++ out2,
             .error (.exception "Unable to receive user data"))
    else (reqs1, out1, .error (.exception "Authentication failed"))

/-- The auth request issued by `main` (default base URL, login `test`,
password `12345`). -/
def mainAuthReq : Request :=
  authRequest ("http://testapi.ru" ++ ":" ++ "80") "test" "12345"

/-- The get-user request issued by `main` for user `ivanov` with the given
token. -/
def mainGetUserReq (token : Json) : Request :=
  getUserRequest ("http://testapi.ru" ++ ":" ++ "80") "ivanov" token

/-- The update request issued by `main` for the given user id and token,
with the fixed example fields. -/
def mainUpdateReq (user_id token : Json) : Request :=
  updateUserRequest ("http://testapi.ru" ++ ":" ++ "80") user_id token mainUpdateData

/-- Associativity of string concatenation, via the underlying character
lists. -/
theorem str_append_assoc (a b c : String) : a ++ b ++ c = a ++ (b ++ c) := by
  cases a with | mk la =>
  cases b with | mk lb =>
  cases c with | mk lc =>
  show String.mk (la ++ lb ++ lc) = String.mk (la ++ (lb ++ lc))
  rw [List.append_assoc]

/-- `pyEqStr` decides equality with the corresponding string value. -/
theorem pyEqStr_iff (v : Json) (s : String) : pyEqStr v s = true ↔ v = Json.str s := by
  cases v <;> simp [pyEqStr]

/-- On a mapping whose `status` entry is the string `OK`, `is_status_ok`
returns true and prints nothing. -/
theorem is_status_ok_of_ok (m : JsonObject)
    (h : m.lookup "status" = some (Json.str "OK")) : is_status_ok m = (true, []) := by
  simp [is_status_ok, h, pyEqStr]

/-- C1: `is_status_ok(m)` returns true exactly when `m` contains a
`status` key whose value equals the string `OK`, and false when the key is
absent or holds any other value; in particular it is true on a mapping
with `status = OK`, false on one with `status = FAIL`, and false on the
empty mapping. -/
theorem is_status_ok_true_iff_status_OK :
    (∀ m : JsonObject, (is_status_ok m).fst = true ↔ m.lookup "status" = some (Json.str "OK"))
    ∧ (is_status_ok [("status", Json.str "OK")]).fst = true
    ∧ (is_status_ok [("status", Json.str "FAIL")]).fst = false
    ∧ (is_status_ok []).fst = false := by
  refine ⟨?_, rfl, rfl, rfl⟩
  intro m
  unfold is_status_ok
  cases hm : m.lookup "status" with
  | none => simp
  | some v =>
    by_cases hv : pyEqStr v "OK" = true
    · simp [hv, (pyEqStr_iff v "OK").mp hv, pyEqStr]
    · have hne : v ≠ Json.str "OK" := fun he => hv ((pyEqStr_iff v "OK").mpr he)
      simp [hv, hne]

/-- C3 counterexample: on the empty mapping, where the `status` key is
absent, `is_status_ok` returns false but emits no diagnostic at all. -/
theorem is_status_ok_silent_on_missing_key :
    (is_status_ok []).fst = false ∧ (is_status_ok []).snd = [] := ⟨rfl, rfl⟩

/-- C3 (amended): when the `status` key is present with a value other than
the string `OK`, `is_status_ok` emits one diagnostic line naming the
observed value and returns false; when the key is absent it returns false
silently; in both cases it returns normally rather than raising (it is a
total function). -/
theorem is_status_ok_diagnostics (m : JsonObject) (v : Json) :
    (m.lookup "status" = none → is_status_ok m = (false, []))
    ∧ (m.lookup "status" = some v → v ≠ Json.str "OK" →
        is_status_ok m = (false, ["Request failed with status: " ++ pyStr v])) := by
  constructor
  · intro h
    simp [is_status_ok, h]
  · intro h hv
    have hfalse : pyEqStr v "OK" = false := by
      cases hx : pyEqStr v "OK"
      · rfl
      · exact absurd ((pyEqStr_iff v "OK").mp hx) hv
    simp [is_status_ok, h, hfalse]

/-- Witness for the amended C3 at two concrete mappings. -/
theorem is_status_ok_diagnostics_witness :
    is_status_ok [] = (false, [])
    ∧ is_status_ok [("status", Json.str "FAIL")]
        = (false, ["Request failed with status: FAIL"]) := by
  constructor
  · exact (is_status_ok_diagnostics [] Json.null).1 rfl
  · exact (is_status_ok_diagnostics [("status", Json.str "FAIL")] (Json.str "FAIL")).2 rfl
      (fun h => by injection h with h2; exact absurd h2 (by decide))

/-- C2: each of the three client methods propagates the assertion failure
when the transport reports a status other than 200 instead of returning a
mapping, and does not fail at the status check when the status is 200. -/
theorem client_methods_assert_200 (c : ApiClient) (l p u : String)
    (tok uid : Json) (d : JsonObject) :
    ((c.session (authRequest c.base_url l p)).status ≠ 200 →
        (c.auth l p).2.2 = Except.error PyError.assertionError)
    ∧ ((c.session (authRequest c.base_url l p)).status = 200 →
        (c.auth l p).2.2 = Except.ok (c.session (authRequest c.base_url l p)).json)
    ∧ ((c.session (getUserRequest c.base_url u tok)).status ≠ 200 →
        (c.get_user u tok).2.2 = Except.error PyError.assertionError)
    ∧ ((c.session (getUserRequest c.base_url u tok)).status = 200 →
        (c.get_user u tok).2.2 = Except.ok (c.session (getUserRequest c.base_url u tok)).json)
    ∧ ((c.session (updateUserRequest c.base_url uid tok d)).status ≠ 200 →
        (c.update_user uid tok d).2.2 = Except.error PyError.assertionError)
    ∧ ((c.session (updateUserRequest c.base_url uid tok d)).status = 200 →
        (c.update_user uid tok d).2.2
          = Except.ok (c.session (updateUserRequest c.base_url uid tok d)).json) := by
  refine ⟨fun h => ?_, fun h => ?_, fun h => ?_, fun h => ?_, fun h => ?_, fun h => ?_⟩ <;>
    simp [ApiClient.auth, ApiClient.get_user, ApiClient.update_user, h]

/-- A transport that reports HTTP 500 on every request. -/
def sess500 : Session := fun _ => ⟨500, []⟩

/-- A transport that reports HTTP 200 with body `status = OK` on every
request. -/
def sess200 : Session := fun _ => ⟨200, [("status", Json.str "OK")]⟩

/-- Witness for C2: with a transport answering 500 each method fails with
the assertion error, and with a transport answering 200 each method
returns the body. -/
theorem client_methods_assert_200_witness :
    ((ApiClient.init sess500 "http://testapi.ru" "80").auth "test" "12345").2.2
        = Except.error PyError.assertionError
    ∧ ((ApiClient.init sess200 "http://testapi.ru" "80").auth "test" "12345").2.2
        = Except.ok [("status", Json.str "OK")]
    ∧ ((ApiClient.init sess500 "http://testapi.ru" "80").get_user "ivanov" (Json.str "T")).2.2
        = Except.error PyError.assertionError
    ∧ ((ApiClient.init sess200 "http://testapi.ru" "80").get_user "ivanov" (Json.str "T")).2.2
        = Except.ok [("status", Json.str "OK")]
    ∧ ((ApiClient.init sess500 "http://testapi.ru" "80").update_user
          (Json.num 23) (Json.str "T") mainUpdateData).2.2
        = Except.error PyError.assertionError
    ∧ ((ApiClient.init sess200 "http://testapi.ru" "80").update_user
          (Json.num 23) (Json.str "T") mainUpdateData).2.2
        = Except.ok [("status", Json.str "OK")] := by
  refine ⟨?_, ?_, ?_, ?_, ?_, ?_⟩
  · exact (client_methods_assert_200 _ "test" "12345" "ivanov" (Json.str "T") (Json.num 23)
      mainUpdateData).1 (by decide)
  · exact (client_methods_assert_200 _ "test" "12345" "ivanov" (Json.str "T") (Json.num 23)
      mainUpdateData).2.1 rfl
  · exact (client_methods_assert_200 _ "test" "12345" "ivanov" (Json.str "T") (Json.num 23)
      mainUpdateData).2.2.1 (by decide)
  · exact (client_methods_assert_200 _ "test" "12345" "ivanov" (Json.str "T") (Json.num 23)
      mainUpdateData).2.2.2.1 rfl
  · exact (client_methods_assert_200 _ "test" "12345" "ivanov" (Json.str "T") (Json.num 23)
      mainUpdateData).2.2.2.2.1 (by decide)
  · exact (client_methods_assert_200 _ "test" "12345" "ivanov" (Json.str "T") (Json.num 23)
      mainUpdateData).2.2.2.2.2 rfl

/-- C8: no client method modifies the client: after any of the three calls
the client state (its base URL and its session handle, the only attributes
set by the constructor) is the same value as before the call, so no
credential, token or response is retained. -/
theorem client_state_immutable (c : ApiClient) (l p u : String)
    (tok uid : Json) (d : JsonObject) :
    (c.auth l p).1 = c ∧ (c.get_user u tok).1 = c ∧ (c.update_user uid tok d).1 = c :=
  ⟨rfl, rfl, rfl⟩

/-- C9: the client methods never inspect the `status` field of the decoded
body: on an HTTP 200 response whose body fails `is_status_ok` (its
`status` missing or different from `OK`), each method still returns that
body normally instead of failing. -/
theorem client_methods_ignore_body_status (c : ApiClient) (l p u : String)
    (tok uid : Json) (d m : JsonObject) (hbad : (is_status_ok m).fst = false) :
    (c.session (authRequest c.base_url l p) = ⟨200, m⟩ →
        (c.auth l p).2.2 = Except.ok m)
    ∧ (c.session (getUserRequest c.base_url u tok) = ⟨200, m⟩ →
        (c.get_user u tok).2.2 = Except.ok m)
    ∧ (c.session (updateUserRequest c.base_url uid tok d) = ⟨200, m⟩ →
        (c.update_user uid tok d).2.2 = Except.ok m) := by
  refine ⟨fun h => ?_, fun h => ?_, fun h => ?_⟩ <;>
    simp [ApiClient.auth, ApiClient.get_user, ApiClient.update_user, h]

/-- A transport that reports HTTP 200 with body `status = FAIL` on every
request. -/
def sessBodyFail : Session := fun _ => ⟨200, [("status", Json.str "FAIL")]⟩

/-- Witness for C9: on a 200 response with `status = FAIL`, `auth` returns
the body unchanged. -/
theorem client_methods_ignore_body_status_witness :
    ((ApiClient.init sessBodyFail "http://testapi.ru" "80").auth "test" "12345").2.2
      = Except.ok [("status", Json.str "FAIL")] :=
  (client_methods_ignore_body_status _ "test" "12345" "ivanov" (Json.str "T")
    (Json.num 23) mainUpdateData [("status", Json.str "FAIL")] rfl).1 rfl

/-- C4: `auth(L, P)` issues exactly one GET request, at path `/auth` under
the configured base URL, with query parameters exactly `login=L` and
`pass=P` and no body; when the transport answers HTTP 200 with JSON body
`m`, it returns `m` unchanged. -/
theorem auth_request_shape (c : ApiClient) (l p : String) (m : JsonObject)
    (h : c.session (authRequest c.base_url l p) = ⟨200, m⟩) :
    (c.auth l p).2.1 = [authRequest c.base_url l p]
    ∧ (authRequest c.base_url l p).method = "GET"
    ∧ (authRequest c.base_url l p).url = c.base_url ++ "/auth"
    ∧ (authRequest c.base_url l p).params = [("login", Json.str l), ("pass", Json.str p)]
    ∧ (authRequest c.base_url l p).body = none
    ∧ (c.auth l p).2.2 = Except.ok m := by
  refine ⟨rfl, rfl, ?_, rfl, rfl, ?_⟩
  · show c.base_url ++ "/" ++ "auth" = c.base_url ++ "/auth"
    rw [str_append_assoc]
    rfl
  · simp [ApiClient.auth, h]

/-- A transport that reports HTTP 200 with an auth-style body. -/
def sessAuthOk : Session := fun _ => ⟨200, [("status", Json.str "OK"), ("token", Json.str "T")]⟩

/-- Witness for C4 at a concrete client, login and password. -/
theorem auth_request_shape_witness :
    ((ApiClient.init sessAuthOk "http://testapi.ru" "80").auth "test" "12345").2.2
      = Except.ok [("status", Json.str "OK"), ("token", Json.str "T")] :=
  (auth_request_shape _ "test" "12345" _ rfl).2.2.2.2.2

/-- C5: `get_user(U, K)` issues a GET request whose path embeds `U` as the
path segment `get-user/U` (the only query parameter is `token=K`, so `U`
never appears as a query parameter) and no body; when the transport
answers HTTP 200 with JSON body `m`, it returns `m` unchanged. -/
theorem get_user_request_shape (c : ApiClient) (u k : String) (m : JsonObject)
    (h : c.session (getUserRequest c.base_url u (Json.str k)) = ⟨200, m⟩) :
    (c.get_user u (Json.str k)).2.1 = [getUserRequest c.base_url u (Json.str k)]
    ∧ (getUserRequest c.base_url u (Json.str k)).method = "GET"
    ∧ (getUserRequest c.base_url u (Json.str k)).url = c.base_url ++ "/get-user/" ++ u
    ∧ (getUserRequest c.base_url u (Json.str k)).params = [("token", Json.str k)]
    ∧ (getUserRequest c.base_url u (Json.str k)).body = none
    ∧ (c.get_user u (Json.str k)).2.2 = Except.ok m := by
  refine ⟨rfl, rfl, ?_, rfl, rfl, ?_⟩
  · show c.base_url ++ "/" ++ ("get-user/" ++ u) = c.base_url ++ "/get-user/" ++ u
    simp only [str_append_assoc]
    rw [← str_append_assoc "/" "get-user/" u]
    rfl
  · simp [ApiClient.get_user, h]

/-- A transport that reports HTTP 200 with a user-record body. -/
def sessUserOk : Session := fun _ => ⟨200, [("status", Json.str "OK"), ("id", Json.num 23)]⟩

/-- Witness for C5 at a concrete client, username and token. -/
theorem get_user_request_shape_witness :
    ((ApiClient.init sessUserOk "http://testapi.ru" "80").get_user "ivanov"
        (Json.str "dsfd79843r32d1d3dx23d32d")).2.2
      = Except.ok [("status", Json.str "OK"), ("id", Json.num 23)] :=
  (get_user_request_shape _ "ivanov" "dsfd79843r32d1d3dx23d32d" _ rfl).2.2.2.2.2

/-- C6: `update_user(I, K, **F)` issues a POST request at path
`user/I/update` under the base URL, with `token=K` as the only query
parameter and the field dict `F` serialized verbatim as the JSON body;
when the transport answers HTTP 200 with JSON body `m`, it returns `m`. -/
theorem update_user_request_shape (c : ApiClient) (i k : String) (f m : JsonObject)
    (h : c.session (updateUserRequest c.base_url (Json.str i) (Json.str k) f) = ⟨200, m⟩) :
    (c.update_user (Json.str i) (Json.str k) f).2.1
        = [updateUserRequest c.base_url (Json.str i) (Json.str k) f]
    ∧ (updateUserRequest c.base_url (Json.str i) (Json.str k) f).method = "POST"
    ∧ (updateUserRequest c.base_url (Json.str i) (Json.str k) f).url
        = c.base_url ++ "/user/" ++ i ++ "/update"
    ∧ (updateUserRequest c.base_url (Json.str i) (Json.str k) f).params
        = [("token", Json.str k)]
    ∧ (updateUserRequest c.base_url (Json.str i) (Json.str k) f).body = some (Json.obj f)
    ∧ (c.update_user (Json.str i) (Json.str k) f).2.2 = Except.ok m := by
  refine ⟨rfl, rfl, ?_, rfl, rfl, ?_⟩
  · show c.base_url ++ "/" ++ ("user/" ++ i ++ "/update") = c.base_url ++ "/user/" ++ i ++ "/update"
    simp only [str_append_assoc]
    rw [← str_append_assoc "/" "user/" (i ++ "/update")]
    rfl
  · simp [ApiClient.update_user, h]

/-- A transport that reports HTTP 200 with body `status = OK`. -/
def sessUpdateOk : Session := fun _ => ⟨200, [("status", Json.str "OK")]⟩

/-- Witness for C6: the exact example field set of the spec is sent
verbatim as the request body, and the response body is returned. -/
theorem update_user_request_shape_witness :
    ((ApiClient.init sessUpdateOk "http://testapi.ru" "80").update_user
        (Json.str "23") (Json.str "T") mainUpdateData).2.2
      = Except.ok [("status", Json.str "OK")]
    ∧ (updateUserRequest ("http://testapi.ru" ++ ":" ++ "80") (Json.str "23") (Json.str "T")
        mainUpdateData).body
      = some (Json.obj
          [("active", Json.str "1"),
           ("blocked", Json.bool true),
           ("name", Json.str "Petr Petrovich"),
           ("permissions", Json.arr [Json.obj
              [("id", Json.num 1), ("permission", Json.str "comment")]])]) :=
  ⟨(update_user_request_shape _ "23" "T" mainUpdateData _ rfl).2.2.2.2.2,
   (update_user_request_shape (ApiClient.init sessUpdateOk "http://testapi.ru" "80")
      "23" "T" mainUpdateData _ rfl).2.2.2.2.1⟩

/-- C7: the sample driver runs authenticate, get-user, update-user
strictly in that order; the `token` field of the authenticate response is
passed to both the get-user and the update request, the `id` field of the
get-user response is passed to the update request; after any step whose
response fails `is_status_ok` the driver raises the exception naming that
step and issues no further request. -/
theorem main_driver_flow (s : Session) (m1 m2 m3 : JsonObject) (tok uid : Json)
    (out1 out2 out3 : List String)
    (h1 : s mainAuthReq = ⟨200, m1⟩) :
    (is_status_ok m1 = (false, out1) →
        api_client.main s = ([mainAuthReq], out1,
          Except.error (PyError.exception "Authentication failed")))
    ∧ (m1.lookup "status" = some (Json.str "OK") → m1.lookup "token" = some tok →
        s (mainGetUserReq tok) = ⟨200, m2⟩ →
        ((is_status_ok m2 = (false, out2) →
            api_client.main s = ([mainAuthReq, mainGetUserReq tok], out2,
              Except.error (PyError.exception "Unable to receive user data")))
         ∧ (m2.lookup "status" = some (Json.str "OK") → m2.lookup "id" = some uid →
             s (mainUpdateReq uid tok) = ⟨200, m3⟩ →
             ((is_status_ok m3 = (false, out3) →
                 api_client.main s
                   = ([mainAuthReq, mainGetUserReq tok, mainUpdateReq uid tok], out3,
                      Except.error (PyError.exception "Unable to update user data")))
              ∧ (m3.lookup "status" = some (Json.str "OK") →
                  api_client.main s
                    = ([mainAuthReq, mainGetUserReq tok, mainUpdateReq uid tok], [],
                       Except.ok ())))))) := by
  simp only [mainAuthReq, mainGetUserReq, mainUpdateReq, String.reduceAppend] at h1 ⊢
  constructor
  · intro hA
    simp [api_client.main, ApiClient.init, ApiClient.auth, h1, hA]
  · intro hs1 htok h2
    have e1 := is_status_ok_of_ok m1 hs1
    constructor
    · intro hB
      simp [api_client.main, ApiClient.init, ApiClient.auth, ApiClient.get_user,
        h1, h2, e1, htok, hB]
    · intro hs2 hid h3
      have e2 := is_status_ok_of_ok m2 hs2
      constructor
      · intro hC
        simp [api_client.main, ApiClient.init, ApiClient.auth, ApiClient.get_user,
          ApiClient.update_user, h1, h2, h3, e1, e2, htok, hid, hC]
      · intro hs3
        have e3 := is_status_ok_of_ok m3 hs3
        simp [api_client.main, ApiClient.init, ApiClient.auth, ApiClient.get_user,
          ApiClient.update_user, h1, h2, h3, e1, e2, e3, htok, hid]

/-- A transport driving the sample flow to full success: it answers the
auth request with a token, the get-user request with an id, and anything
else with a bare OK envelope. -/
def sessHappy : Session := fun r =>
  if r.url = "http://testapi.ru:80/auth" then
    ⟨200, [("status", Json.str "OK"), ("token", Json.str "T")]⟩
  else if r.url = "http://testapi.ru:80/get-user/ivanov" then
    ⟨200, [("status", Json.str "OK"), ("id", Json.num 23)]⟩
  else ⟨200, [("status", Json.str "OK")]⟩

/-- Witness for C7: on the happy-path transport the driver issues exactly
the three requests in order, threading token and id, and succeeds. -/
theorem main_driver_flow_witness :
    api_client.main sessHappy
      = ([mainAuthReq, mainGetUserReq (Json.str "T"), mainUpdateReq (Json.num 23) (Json.str "T")],
         [], Except.ok ()) :=
  ((((main_driver_flow sessHappy
        [("status", Json.str "OK"), ("token", Json.str "T")]
        [("status", Json.str "OK"), ("id", Json.num 23)]
        [("status", Json.str "OK")]
        (Json.str "T") (Json.num 23) [] [] [] rfl).2
      rfl rfl rfl).2 rfl rfl rfl).2 rfl)

/-- A transport whose auth response has status OK but carries no token. -/
def sessNoToken : Session := fun _ => ⟨200, [("status", Json.str "OK")]⟩

/-- A transport whose auth response is complete but whose get-user
response, while status OK, carries no id. -/
def sessNoId : Session := fun r =>
  if r.url = "http://testapi.ru:80/auth" then
    ⟨200, [("status", Json.str "OK"), ("token", Json.str "T")]⟩
  else ⟨200, [("status", Json.str "OK")]⟩

/-- C10: a passing `is_status_ok` check does not guarantee the field read
next: on an auth response equal to the bare OK envelope the driver fails
with the key error for `token` (not with the step-named exception), and on
a get-user response with no `id` key it fails with the key error for `id`,
because the fields are read unconditionally after the status check. -/
theorem main_keyerror_on_missing_field :
    api_client.main sessNoToken
      = ([mainAuthReq], [], Except.error (PyError.keyError "token"))
    ∧ api_client.main sessNoId
      = ([mainAuthReq, mainGetUserReq (Json.str "T")], [],
         Except.error (PyError.keyError "id")) :=
  ⟨rfl, rfl⟩
